import Mathlib

/-!
Verification of the masonry-estimation program (src/calculate.py) against
its specification.  Numeric values are modelled by exact rationals; Python
float division by zero (which raises ZeroDivisionError) is modelled by
Option, with none standing for the raised error.
-/

/-- The dataclass Wall from src/calculate.py: length, height, width in metres. -/
structure Wall where
  length : ℚ
  height : ℚ
  width : ℚ
deriving DecidableEq, Repr

/-- The dataclass Material from src/calculate.py: a named unit with
dimensions, a GOST reference string and a mortar consumption rate
(default 0.23). -/
structure Material where
  name : String
  length : ℚ
  width : ℚ
  height : ℚ
  gost : String
  mortar_rate : ℚ := 23 / 100
deriving DecidableEq, Repr

/-- The dataclass Opening from src/calculate.py: a named opening with
length, height, a positive count (default 1) and an optional width
(none means: use the average wall width at computation time). -/
structure Opening where
  name : String
  length : ℚ
  height : ℚ
  count : ℕ := 1
  width : Option ℚ := none
deriving DecidableEq, Repr

/-- Embeds calculate_wall_volume (src/calculate.py lines 79-98).
Returns (gross_volume, perimeter).  An empty wall list returns (0, 0)
before any division.  When exactly 4 walls are given and their lengths
take exactly 2 distinct values, the rectangular shortcut is used with
a, b the sorted distinct lengths (Python: a, b = sorted(unique_lengths));
otherwise the general formula.  Both formulas divide by material_width;
material_width = 0 makes Python raise ZeroDivisionError, modelled here
as none. -/
def calculate_wall_volume (walls : List Wall) (material_width : ℚ) :
    Option (ℚ × ℚ) :=
  if walls.isEmpty then some (0, 0)
  else
    let general : Option (ℚ × ℚ) :=
      if material_width = 0 then none
      else
        let total_area := (walls.map (fun w => w.length * w.height)).sum
        let width_layers :=
          (walls.map Wall.width).sum / ((walls.length : ℚ) * material_width)
        let perimeter := (walls.map Wall.length).sum
        some (total_area * material_width * width_layers, perimeter)
    if walls.length = 4 then
      match (walls.map Wall.length).toFinset.sort (· ≤ ·) with
      | [a, b] =>
        if material_width = 0 then none
        else
          let perimeter := 2 * (a + b)
          let avg_height := (walls.map Wall.height).sum / 4
          let width_layers := (walls.map Wall.width).sum / (4 * material_width)
          some (perimeter * avg_height * material_width * width_layers, perimeter)
      | _ => general
    else general

/-- Embeds the net-volume computation of src/calculate.py line 256:
net_wall_volume = max(0, total_wall_volume - total_openings_volume). -/
def compute_net_volume (gross total_openings : ℚ) : ℚ :=
  max 0 (gross - total_openings)

/-- Embeds the material-count computation of src/calculate.py lines 259-260:
block_volume = length * width * height;
blocks_count = net / block_volume if block_volume > 0 else 0. -/
def compute_material_count (net_volume : ℚ) (m : Material) : ℚ :=
  let block_volume := m.length * m.width * m.height
  if block_volume > 0 then net_volume / block_volume else 0

/-- Embeds the mortar computation of src/calculate.py line 263. -/
def compute_mortar_volume (net_volume : ℚ) (m : Material) : ℚ :=
  net_volume * m.mortar_rate

/-- Python's round on an exact value: round half to even (banker's
rounding), as used by round() in src/calculate.py lines 268-270. -/
def pyRound (q : ℚ) : ℤ :=
  if q - ⌊q⌋ < 1 / 2 then ⌊q⌋
  else if 1 / 2 < q - ⌊q⌋ then ⌊q⌋ + 1
  else if ⌊q⌋ % 2 = 0 then ⌊q⌋ else ⌊q⌋ + 1

/-- Embeds the per-wall unit-count loop of src/calculate.py lines 266-272:
for i, wall in enumerate(walls, 1), emit
(i, max(1, round(l/L)) * max(1, round(h/H)) * max(1, round(w/W))). -/
def blocks_in_walls (walls : List Wall) (m : Material) : List (ℕ × ℤ) :=
  walls.enum.map (fun p =>
    (p.1 + 1,
      max 1 (pyRound (p.2.length / m.length)) *
        max 1 (pyRound (p.2.height / m.height)) *
        max 1 (pyRound (p.2.width / m.width))))

/-- Embeds the per-opening volume of src/calculate.py lines 250-252:
op_width = op.width if op.width is not None else avg_wall_width;
volume = length * height * op_width * count. -/
def opening_volume (op : Opening) (avg_wall_width : ℚ) : ℚ :=
  op.length * op.height * (op.width.getD avg_wall_width) * (op.count : ℚ)

/-- Embeds the accumulation of total_openings_volume
(src/calculate.py lines 246-253). -/
def total_openings_volume (openings : List Opening) (avg_wall_width : ℚ) : ℚ :=
  (openings.map (fun op => opening_volume op avg_wall_width)).sum

/-- Embeds the opening_details list (src/calculate.py lines 247-254):
ordered (name, volume) pairs, appended in input order. -/
def opening_details (openings : List Opening) (avg_wall_width : ℚ) :
    List (String × ℚ) :=
  openings.map (fun op => (op.name, opening_volume op avg_wall_width))

/-- The flat record stored for one material in materials.json: the result
of Python's vars(material) (src/calculate.py line 51).  The textual JSON
layer is modelled by the structured value itself: json.dump followed by
json.load reproduces the same keyed structure. -/
structure MaterialRecord where
  name : String
  length : ℚ
  width : ℚ
  height : ℚ
  gost : String
  mortar_rate : ℚ
deriving DecidableEq, Repr

/-- Embeds vars(material) used by save_materials_to_file (line 51). -/
def material_vars (m : Material) : MaterialRecord :=
  ⟨m.name, m.length, m.width, m.height, m.gost, m.mortar_rate⟩

/-- Embeds Material(**v) used by load_materials_from_file (line 46). -/
def material_of_record (r : MaterialRecord) : Material :=
  ⟨r.name, r.length, r.width, r.height, r.gost, r.mortar_rate⟩

/-- Embeds save_materials_to_file (src/calculate.py lines 50-53): the
catalog, a mapping from name to Material, is written as a mapping from
name to the vars record.  The mapping is modelled as an association list
in insertion order (Python dicts preserve insertion order). -/
def save_materials_to_file (ms : List (String × Material)) :
    List (String × MaterialRecord) :=
  ms.map (fun p => (p.1, material_vars p.2))

/-- Embeds load_materials_from_file (src/calculate.py lines 42-48) on a
well-formed stored catalog: each stored record is turned back into a
Material via Material(**v). -/
def load_materials_from_file (d : List (String × MaterialRecord)) :
    List (String × Material) :=
  d.map (fun p => (p.1, material_of_record p.2))

/-- One line typed by the operator at a numeric prompt, classified the way
src/calculate.py reacts to it: the back keystroke w, a line parsing to a
number, non-numeric non-empty text (float() raises ValueError), or the
empty line. -/
inductive Entry where
  | back : Entry
  | num : ℚ → Entry
  | junk : Entry
  | emptyLine : Entry
deriving DecidableEq, Repr

/-- Embeds input_with_back (src/calculate.py lines 55-77) run against a
finite script of operator entries.  The outer Option is none when the
script is exhausted with the prompt still open (the loop never exits by
itself); some none is the back signal; some (some q) is an accepted value.
A junk or empty entry is caught by the except ValueError handler and the
prompt is re-issued; a below-minimum entry prints a message and the prompt
is re-issued. -/
def input_with_back : List Entry → Option ℚ → Option (Option ℚ)
  | [], _ => none
  | Entry.back :: _, _ => some none
  | Entry.junk :: rest, m => input_with_back rest m
  | Entry.emptyLine :: rest, m => input_with_back rest m
  | Entry.num q :: rest, m =>
    match m with
    | some mv => if q < mv then input_with_back rest (some mv) else some (some q)
    | none => some (some q)

/-- Embeds the opening-width prompt (src/calculate.py lines 240-241):
custom_width = input(...); width = float(custom_width) if custom_width
else None.  This prompt is NOT routed through input_with_back: a
non-numeric non-empty entry makes float() raise ValueError, which has no
local handler and propagates to the session-level except at line 314. -/
def parse_opening_width : Entry → Except String (Option ℚ)
  | Entry.emptyLine => Except.ok none
  | Entry.num q => Except.ok (some q)
  | Entry.junk => Except.error "ValueError"
  | Entry.back => Except.error "ValueError"

/-! ## Theorems -/

/-- Claim C3: for every non-negative gross volume and non-negative total
opening volume, the net masonry volume equals max(0, gross - openings)
and is never negative, including when the opening total exceeds the gross
volume. -/
theorem net_volume_clamped (gross total_op : ℚ)
    (hg : 0 ≤ gross) (ho : 0 ≤ total_op) :
    compute_net_volume gross total_op = max 0 (gross - total_op) ∧
      0 ≤ compute_net_volume gross total_op :=
  ⟨rfl, le_max_left 0 (gross - total_op)⟩

/-- Witness for C3 at gross = 5, openings = 8 (openings exceed gross). -/
theorem net_volume_clamped_witness :
    0 ≤ (5 : ℚ) ∧ 0 ≤ (8 : ℚ) ∧
      (compute_net_volume 5 8 = max 0 ((5 : ℚ) - 8) ∧
        0 ≤ compute_net_volume 5 8) :=
  ⟨by norm_num, by norm_num, net_volume_clamped 5 8 (by norm_num) (by norm_num)⟩

/-- Claim C4: the aggregate material count is net_volume divided by the
unit volume when that volume is positive, and exactly 0 when any material
dimension is 0; the zero branch never divides. -/
theorem material_count_guarded (net_volume : ℚ) (m : Material) :
    (0 < m.length * m.width * m.height →
      compute_material_count net_volume m =
        net_volume / (m.length * m.width * m.height)) ∧
    (m.length = 0 ∨ m.width = 0 ∨ m.height = 0 →
      compute_material_count net_volume m = 0) := by
  constructor
  · intro h
    simp [compute_material_count, h]
  · intro h
    have hz : m.length * m.width * m.height = 0 := by
      rcases h with h | h | h <;> simp [h]
    simp [compute_material_count, hz]

/-- Witness for C4: the brick profile gives a genuine division, a material
with zero height gives exactly 0. -/
theorem material_count_guarded_witness :
    compute_material_count 5 ⟨"brick", 1/4, 12/100, 13/200, "g", 23/100⟩ =
        5 / ((1/4 : ℚ) * (12/100) * (13/200)) ∧
      compute_material_count 5 ⟨"bad", 1/4, 12/100, 0, "g", 23/100⟩ = 0 :=
  ⟨(material_count_guarded 5 ⟨"brick", 1/4, 12/100, 13/200, "g", 23/100⟩).1
      (by norm_num),
    (material_count_guarded 5 ⟨"bad", 1/4, 12/100, 0, "g", 23/100⟩).2
      (Or.inr (Or.inr rfl))⟩

/-- Claim C5: for positive material dimensions the per-wall counts are
produced in input order, the i-th entry being
(i+1, max(1, round(l/L)) * max(1, round(h/H)) * max(1, round(w/W))),
and every count is at least 1. -/
theorem blocks_in_walls_spec (walls : List Wall) (m : Material)
    (i : ℕ) (w : Wall)
    (hl : 0 < m.length) (hw : 0 < m.width) (hh : 0 < m.height)
    (hi : walls[i]? = some w) :
    (blocks_in_walls walls m)[i]? =
      some (i + 1,
        max 1 (pyRound (w.length / m.length)) *
          max 1 (pyRound (w.height / m.height)) *
          max 1 (pyRound (w.width / m.width))) ∧
    (1 : ℤ) ≤ max 1 (pyRound (w.length / m.length)) *
        max 1 (pyRound (w.height / m.height)) *
        max 1 (pyRound (w.width / m.width)) := by
  constructor
  · rw [blocks_in_walls, List.getElem?_map, List.getElem?_enum, hi]
    rfl
  · have h1 : (1 : ℤ) ≤ max 1 (pyRound (w.length / m.length)) := le_max_left _ _
    have h2 : (1 : ℤ) ≤ max 1 (pyRound (w.height / m.height)) := le_max_left _ _
    have h3 : (1 : ℤ) ≤ max 1 (pyRound (w.width / m.width)) := le_max_left _ _
    exact one_le_mul_of_one_le_of_one_le
      (one_le_mul_of_one_le_of_one_le h1 h2) h3

/-- Witness for C5 at a single 10 by 3 by 0.3 wall and the brick profile. -/
theorem blocks_in_walls_spec_witness :
    (blocks_in_walls [⟨10, 3, 3/10⟩] ⟨"brick", 1/4, 12/100, 13/200, "g", 23/100⟩)[0]? =
        some (0 + 1,
          max 1 (pyRound ((10 : ℚ) / (1/4))) *
            max 1 (pyRound ((3 : ℚ) / (13/200))) *
            max 1 (pyRound ((3/10 : ℚ) / (12/100)))) ∧
      (1 : ℤ) ≤ max 1 (pyRound ((10 : ℚ) / (1/4))) *
          max 1 (pyRound ((3 : ℚ) / (13/200))) *
          max 1 (pyRound ((3/10 : ℚ) / (12/100))) :=
  blocks_in_walls_spec [⟨10, 3, 3/10⟩] ⟨"brick", 1/4, 12/100, 13/200, "g", 23/100⟩
    0 ⟨10, 3, 3/10⟩ (by norm_num) (by norm_num) (by norm_num) rfl

/-- Claim C6: each opening's volume is length * height * effective width *
count, where the effective width is the opening's own width when present
and the average wall width otherwise; the total is the sum of the volumes
and the (name, volume) breakdown preserves input order. -/
theorem opening_volume_spec (openings : List Opening) (avg_wall_width : ℚ)
    (i : ℕ) (op : Opening) (hi : openings[i]? = some op) :
    (opening_details openings avg_wall_width)[i]? =
      some (op.name,
        op.length * op.height * (op.width.getD avg_wall_width) * (op.count : ℚ)) ∧
    total_openings_volume openings avg_wall_width =
      (openings.map (fun o =>
        o.length * o.height * (o.width.getD avg_wall_width) * (o.count : ℚ))).sum := by
  constructor
  · rw [opening_details, List.getElem?_map, hi]
    rfl
  · rfl

/-- Witness for C6: one double window 1.2 by 2.1 with unset width against
average wall width 0.3. -/
theorem opening_volume_spec_witness :
    (opening_details [⟨"window", 12/10, 21/10, 2, none⟩] (3/10))[0]? =
        some ("window",
          (12/10 : ℚ) * (21/10) * ((none : Option ℚ).getD (3/10)) * ((2 : ℕ) : ℚ)) ∧
      total_openings_volume [⟨"window", 12/10, 21/10, 2, none⟩] (3/10) =
        ([Opening.mk "window" (12/10) (21/10) 2 none].map (fun o =>
          o.length * o.height * (o.width.getD (3/10)) * (o.count : ℚ))).sum :=
  opening_volume_spec [⟨"window", 12/10, 21/10, 2, none⟩] (3/10) 0
    ⟨"window", 12/10, 21/10, 2, none⟩ rfl

/-- Claim C8: saving a catalog and loading it back reproduces the same
material names, each mapped to a material with identical length, width,
height, gost code and mortar rate. -/
theorem catalog_round_trip (ms : List (String × Material)) :
    load_materials_from_file (save_materials_to_file ms) = ms := by
  induction ms with
  | nil => rfl
  | cons p t ih =>
    obtain ⟨k, m⟩ := p
    simpa [load_materials_from_file, save_materials_to_file,
      material_vars, material_of_record] using ih

/-- Claim C9: entries rejected by input_with_back (non-numeric text, the
empty line, or a value below the minimum) are recovered locally and the
prompt is re-issued; but the opening-width prompt parses with a bare
float() call, so a non-numeric entry there raises ValueError with no
local handler. -/
theorem input_validation_gap :
    (∀ rest m, input_with_back (Entry.junk :: rest) m = input_with_back rest m) ∧
    (∀ rest m,
      input_with_back (Entry.emptyLine :: rest) m = input_with_back rest m) ∧
    (∀ q rest mv, input_with_back (Entry.num q :: rest) (some mv) =
      if q < mv then input_with_back rest (some mv) else some (some q)) ∧
    parse_opening_width Entry.junk = Except.error "ValueError" :=
  ⟨fun _ _ => rfl, fun _ _ => rfl, fun _ _ _ => rfl, rfl⟩

/-- Sorting a two-element finset of rationals lists the smaller first. -/
lemma sort_pair_of_lt {a b : ℚ} (hab : a < b) :
    ({a, b} : Finset ℚ).sort (· ≤ ·) = [a, b] := by
  have h1 : ∀ c ∈ ({b} : Finset ℚ), a ≤ c := by
    intro c hc
    rw [Finset.mem_singleton] at hc
    exact hc ▸ hab.le
  have h2 : a ∉ ({b} : Finset ℚ) := by
    rw [Finset.mem_singleton]
    exact hab.ne
  rw [show ({a, b} : Finset ℚ) = insert a {b} from rfl,
    Finset.sort_insert _ h1 h2, Finset.sort_singleton]

/-- A wall list whose lengths all equal a or b, with both attained, has
exactly the two-element length set {a, b}. -/
lemma lengths_toFinset_pair (walls : List Wall) (a b : ℚ)
    (ha : ∃ w ∈ walls, w.length = a) (hb : ∃ w ∈ walls, w.length = b)
    (hall : ∀ w ∈ walls, w.length = a ∨ w.length = b) :
    (walls.map Wall.length).toFinset = {a, b} := by
  ext x
  simp only [List.mem_toFinset, List.mem_map, Finset.mem_insert,
    Finset.mem_singleton]
  constructor
  · rintro ⟨w, hw, rfl⟩
    exact hall w hw
  · rintro (rfl | rfl)
    · exact ha
    · exact hb

/-- Claim C1: for every list of exactly 4 walls whose distinct length
values are exactly a and b with a < b, and every material_width > 0,
calculate_wall_volume takes the rectangular shortcut: the perimeter is
exactly 2*(a+b) and the gross volume is perimeter * avg_height *
material_width * width_layers, with avg_height the mean of the 4 heights
and width_layers the sum of the 4 widths divided by 4 * material_width. -/
theorem rect_shortcut (walls : List Wall) (mw a b : ℚ)
    (h4 : walls.length = 4) (hmw : 0 < mw) (hab : a < b)
    (ha : ∃ w ∈ walls, w.length = a) (hb : ∃ w ∈ walls, w.length = b)
    (hall : ∀ w ∈ walls, w.length = a ∨ w.length = b) :
    calculate_wall_volume walls mw =
      some (2 * (a + b) * ((walls.map Wall.height).sum / 4) * mw *
              ((walls.map Wall.width).sum / (4 * mw)),
            2 * (a + b)) := by
  have hne : ¬ walls.isEmpty := by
    simp only [List.isEmpty_iff]
    intro h
    rw [h] at h4
    simp at h4
  rw [calculate_wall_volume, if_neg hne, if_pos h4,
    lengths_toFinset_pair walls a b ha hb hall, sort_pair_of_lt hab]
  simp [hmw.ne']

/-- Witness for C1: the walls 10 by 3 by 0.3 twice and 6 by 3 by 0.3 twice
with brick width 0.12 give gross volume 28.8 and perimeter 32. -/
theorem rect_shortcut_witness :
    calculate_wall_volume
        [⟨10, 3, 3/10⟩, ⟨10, 3, 3/10⟩, ⟨6, 3, 3/10⟩, ⟨6, 3, 3/10⟩] (12/100) =
      some (144/5, 32) := by
  rw [rect_shortcut
    [⟨10, 3, 3/10⟩, ⟨10, 3, 3/10⟩, ⟨6, 3, 3/10⟩, ⟨6, 3, 3/10⟩]
    (12/100) 6 10 rfl (by norm_num) (by norm_num)
    ⟨⟨6, 3, 3/10⟩, by simp, rfl⟩
    ⟨⟨10, 3, 3/10⟩, by simp, rfl⟩
    (by
      intro w hw
      simp only [List.mem_cons, List.not_mem_nil, or_false] at hw
      rcases hw with rfl | rfl | rfl | rfl <;> norm_num)]
  simp only [List.map_cons, List.map_nil, List.sum_cons, List.sum_nil,
    Option.some.injEq, Prod.mk.injEq]
  norm_num

/-- Claim C2: for every non-empty wall list that is not a 4-wall list with
exactly 2 distinct lengths, calculate_wall_volume uses the general
formula: gross volume (sum of length*height) * material_width *
(sum of widths / (wall count * material_width)), perimeter the sum of the
lengths. -/
theorem general_formula (walls : List Wall) (mw : ℚ)
    (hne : walls ≠ [])
    (hnot : ¬ (walls.length = 4 ∧ (walls.map Wall.length).toFinset.card = 2))
    (hmw : mw ≠ 0) :
    calculate_wall_volume walls mw =
      some ((walls.map (fun w => w.length * w.height)).sum * mw *
              ((walls.map Wall.width).sum / ((walls.length : ℚ) * mw)),
            (walls.map Wall.length).sum) := by
  have hne' : ¬ walls.isEmpty := by simp [hne]
  rw [calculate_wall_volume, if_neg hne']
  by_cases h4 : walls.length = 4
  · rw [if_pos h4]
    rcases hsort : (walls.map Wall.length).toFinset.sort (· ≤ ·) with
      _ | ⟨x, _ | ⟨y, _ | ⟨z, t⟩⟩⟩
    · simp [hmw]
    · simp [hmw]
    · exfalso
      apply hnot
      refine ⟨h4, ?_⟩
      have hlen := Finset.length_sort (α := ℚ) (· ≤ ·)
        (s := (walls.map Wall.length).toFinset)
      rw [hsort] at hlen
      simpa using hlen.symm
    · simp [hmw]
  · rw [if_neg h4]
    simp [hmw]

/-- Witness for C2: a single 2 by 3 by 0.5 wall with material width 1
gives gross volume 3 and perimeter 2 by the general formula. -/
theorem general_formula_witness :
    calculate_wall_volume [⟨2, 3, 1/2⟩] 1 = some (3, 2) := by
  rw [general_formula [⟨2, 3, 1/2⟩] 1 (by simp)
    (fun h => absurd h.1 (by norm_num)) (by norm_num)]
  simp only [List.map_cons, List.map_nil, List.sum_cons, List.sum_nil,
    List.length_cons, List.length_nil, Option.some.injEq, Prod.mk.injEq]
  norm_num

/-- Counterexample to C7 as stated: calculate_wall_volume does raise on
some input: a non-empty wall list with material_width = 0 divides by
zero (Python raises ZeroDivisionError), modelled as none. -/
theorem wall_volume_zero_width_error :
    calculate_wall_volume [⟨1, 1, 1⟩] 0 = none := rfl

/-- Claim C7 amended: calculate_wall_volume raises no error whenever
material_width is nonzero; the empty wall list yields exactly (0, 0) for
every material_width; and for every wall list with positive dimensions
and material_width > 0 the gross volume and the perimeter are both
non-negative. -/
theorem wall_volume_no_error_cases (walls : List Wall) (mw : ℚ) :
    (mw ≠ 0 → (calculate_wall_volume walls mw).isSome = true) ∧
    calculate_wall_volume [] mw = some (0, 0) ∧
    ((∀ w ∈ walls, 0 < w.length ∧ 0 < w.height ∧ 0 < w.width) → 0 < mw →
      ∀ g p, calculate_wall_volume walls mw = some (g, p) → 0 ≤ g ∧ 0 ≤ p) := by
  refine ⟨?_, rfl, ?_⟩
  · intro hmw
    rw [calculate_wall_volume]
    split
    · rfl
    · dsimp only
      split
      · split
        · simp [hmw]
        · simp [hmw]
      · simp [hmw]
  · intro hpos hmw g p heq
    have hW : 0 ≤ (walls.map Wall.width).sum := by
      apply List.sum_nonneg
      intro x hx
      rw [List.mem_map] at hx
      obtain ⟨w, hw, rfl⟩ := hx
      exact (hpos w hw).2.2.le
    have hL : 0 ≤ (walls.map Wall.length).sum := by
      apply List.sum_nonneg
      intro x hx
      rw [List.mem_map] at hx
      obtain ⟨w, hw, rfl⟩ := hx
      exact (hpos w hw).1.le
    have hA : 0 ≤ (walls.map (fun w => w.length * w.height)).sum := by
      apply List.sum_nonneg
      intro x hx
      rw [List.mem_map] at hx
      obtain ⟨w, hw, rfl⟩ := hx
      exact mul_nonneg (hpos w hw).1.le (hpos w hw).2.1.le
    have hH : 0 ≤ (walls.map Wall.height).sum := by
      apply List.sum_nonneg
      intro x hx
      rw [List.mem_map] at hx
      obtain ⟨w, hw, rfl⟩ := hx
      exact (hpos w hw).2.1.le
    have hlen : 0 ≤ (walls.length : ℚ) := Nat.cast_nonneg _
    rw [calculate_wall_volume] at heq
    split at heq
    · rw [Option.some.injEq, Prod.mk.injEq] at heq
      obtain ⟨hg, hp⟩ := heq
      exact ⟨hg ▸ le_refl 0, hp ▸ le_refl 0⟩
    · dsimp only at heq
      split at heq
      · split at heq
        · rename_i hsort
          rw [if_neg hmw.ne', Option.some.injEq, Prod.mk.injEq] at heq
          rename_i a b
          have hmem : ∀ c ∈ [a, b], 0 ≤ c := by
            intro c hc
            have hcs : c ∈ (walls.map Wall.length).toFinset.sort (· ≤ ·) := by
              rw [hsort]; exact hc
            rw [Finset.mem_sort, List.mem_toFinset, List.mem_map] at hcs
            obtain ⟨w, hw, rfl⟩ := hcs
            exact (hpos w hw).1.le
          have hza : 0 ≤ a := hmem a (by simp)
          have hzb : 0 ≤ b := hmem b (by simp)
          obtain ⟨hg, hp⟩ := heq
          constructor
          · rw [← hg]
            have hper : 0 ≤ 2 * (a + b) := by positivity
            apply mul_nonneg
            apply mul_nonneg
            apply mul_nonneg hper
            · exact div_nonneg hH (by norm_num)
            · exact hmw.le
            · apply div_nonneg hW
              positivity
          · rw [← hp]
            positivity
        · rw [if_neg hmw.ne', Option.some.injEq, Prod.mk.injEq] at heq
          obtain ⟨hg, hp⟩ := heq
          constructor
          · rw [← hg]
            apply mul_nonneg (mul_nonneg hA hmw.le)
            apply div_nonneg hW
            exact mul_nonneg hlen hmw.le
          · exact hp ▸ hL
      · rw [if_neg hmw.ne', Option.some.injEq, Prod.mk.injEq] at heq
        obtain ⟨hg, hp⟩ := heq
        constructor
        · rw [← hg]
          apply mul_nonneg (mul_nonneg hA hmw.le)
          apply div_nonneg hW
          exact mul_nonneg hlen hmw.le
        · exact hp ▸ hL

/-- Evaluation of calculate_wall_volume at one 2 by 3 by 0.5 wall with
material width 1: gross volume 3, perimeter 2. -/
lemma calc_wall_volume_single_eval :
    calculate_wall_volume [⟨2, 3, 1/2⟩] 1 = some (3, 2) := by
  rw [calculate_wall_volume]
  norm_num

/-- Witness for amended C7: a single 2 by 3 by 0.5 wall with material
width 1 returns a value, and the returned gross volume 3 and perimeter 2
are non-negative. -/
theorem wall_volume_no_error_cases_witness :
    (calculate_wall_volume [⟨2, 3, 1/2⟩] 1).isSome = true ∧
      (0 ≤ (3 : ℚ) ∧ 0 ≤ (2 : ℚ)) :=
  ⟨(wall_volume_no_error_cases [⟨2, 3, 1/2⟩] 1).1 (by norm_num),
    (wall_volume_no_error_cases [⟨2, 3, 1/2⟩] 1).2.2
      (by
        intro w hw
        simp only [List.mem_cons, List.not_mem_nil, or_false] at hw
        subst hw
        refine ⟨by norm_num, by norm_num, by norm_num⟩)
      (by norm_num) 3 2 calc_wall_volume_single_eval⟩

/-- Claim C10: for every non-empty wall list and any two positive material
widths, calculate_wall_volume returns the same result: under exact
arithmetic the material_width factor cancels in both formulas. -/
theorem material_width_cancels (walls : List Wall) (w1 w2 : ℚ)
    (hne : walls ≠ []) (h1 : 0 < w1) (h2 : 0 < w2) :
    calculate_wall_volume walls w1 = calculate_wall_volume walls w2 := by
  have hne' : ¬ walls.isEmpty := by simp [hne]
  have e1 : w1 ≠ 0 := h1.ne'
  have e2 : w2 ≠ 0 := h2.ne'
  have hn : ((walls.length : ℚ)) ≠ 0 := by
    simp [hne]
  rw [calculate_wall_volume, calculate_wall_volume, if_neg hne', if_neg hne']
  by_cases h4 : walls.length = 4
  · rw [if_pos h4, if_pos h4]
    rcases hsort : (walls.map Wall.length).toFinset.sort (· ≤ ·) with
      _ | ⟨x, _ | ⟨y, _ | ⟨z, t⟩⟩⟩
    · simp only [if_neg e1, if_neg e2, Option.some.injEq, Prod.mk.injEq,
        eq_self_iff_true, and_true]
      field_simp
      ring
    · simp only [if_neg e1, if_neg e2, Option.some.injEq, Prod.mk.injEq,
        eq_self_iff_true, and_true]
      field_simp
      ring
    · simp only [if_neg e1, if_neg e2, Option.some.injEq, Prod.mk.injEq,
        eq_self_iff_true, and_true]
      field_simp
      ring
    · simp only [if_neg e1, if_neg e2, Option.some.injEq, Prod.mk.injEq,
        eq_self_iff_true, and_true]
      field_simp
      ring
  · rw [if_neg h4, if_neg h4]
    simp only [if_neg e1, if_neg e2, Option.some.injEq, Prod.mk.injEq,
      eq_self_iff_true, and_true]
    field_simp
    ring

/-- Witness for C10: one 2 by 3 by 0.5 wall gives the same result for
material widths 1 and 2. -/
theorem material_width_cancels_witness :
    calculate_wall_volume [⟨2, 3, 1/2⟩] 1 =
      calculate_wall_volume [⟨2, 3, 1/2⟩] 2 :=
  material_width_cancels [⟨2, 3, 1/2⟩] 1 2 (by decide) (by norm_num)
    (by norm_num)
